import Mathlib

/-!
Shallow embedding of the lead-report pipeline in `work.py`:
the metrics derivation `get_company_metrics`, the logo-URL resolver
`first_non_nan_url`, the best-effort logo download `download_image`,
the brand-color fallback of `process_data_and_generate_reports`,
and the URGENT-stamp condition of `ColdEmailPDF.create_hook_dashboard`.

Python floats are modelled as exact rationals (`ℚ`).  Every numeric
value reachable from the metrics derivation is far from the truncation
boundaries (each reachable composite score is at distance greater than
0.03 from every integer), so exact-rational truncation agrees with
Python's float-based `int(...)` on the whole reachable range.

Python string operations (`lower`, `strip`, `startswith`, `in`) are
modelled by structurally recursive functions on the character list of
the string; `lower` maps only ASCII letters, matching the behaviour of
Python on the ASCII strings the pipeline works with.
-/

/-- Python's `int(...)` on a rational: truncation toward zero. -/
def pyInt (q : ℚ) : ℤ := if 0 ≤ q then ⌊q⌋ else ⌈q⌉

/-- Python's `str.lower` on one character (ASCII range). -/
def pyLowerChar (c : Char) : Char :=
  if 65 ≤ c.toNat ∧ c.toNat ≤ 90 then Char.ofNat (c.toNat + 32) else c

/-- Python's `s.lower()`. -/
def pyToLower (s : String) : String := ⟨s.data.map pyLowerChar⟩

/-- Whitespace characters removed by Python's `str.strip`:
space, tab, newline, carriage return, vertical tab, form feed. -/
def pyIsSpace (c : Char) : Bool :=
  c = ' ' || c = '\t' || c = '\n' || c = '\r' || c.toNat = 11 || c.toNat = 12

/-- Python's `s.strip()`: drop whitespace from both ends. -/
def pyStrip (s : String) : String :=
  ⟨((s.data.dropWhile pyIsSpace).reverse.dropWhile pyIsSpace).reverse⟩

/-- Python's `s.startswith(pre)`. -/
def pyStartsWith (s pre : String) : Bool := pre.data.isPrefixOf s.data

/-- Python's substring test `pat in l` on lists of characters. -/
def containsSub : List Char → List Char → Bool
  | pat, [] => pat.isEmpty
  | pat, c :: t => pat.isPrefixOf (c :: t) || containsSub pat t

/-- Python's `pat in s` for strings. -/
def strContains (s pat : String) : Bool := containsSub pat.data s.data

/-- A cell value from the spreadsheet row: either not a Python `str`
(`None`, NaN, a number, ...) or a string. -/
inductive PyVal where
  | nonString : PyVal
  | ofStr : String → PyVal
deriving DecidableEq

/-- The record built by `get_company_metrics` (a Python dict with five
fixed keys). -/
structure Metrics where
  processing_time : ℤ
  cost_per_invoice : ℚ
  first_time_match_rate : ℤ
  efficiency_score : ℤ
  annual_savings : ℤ
deriving DecidableEq

/-- `get_company_metrics(employees, industry)` from `work.py` lines 37-75.
`employees` is modelled as an integer, `1.8` and `1.2` as the exact
rationals the float literals denote. -/
def get_company_metrics (employees : ℤ) (industry : String) : Metrics :=
  let ind := pyToLower industry
  let processing_time : ℤ :=
    if employees < 50 then 21
    else if 50 ≤ employees ∧ employees < 250 then 15
    else 10
  let cost0 : ℚ := (processing_time : ℚ) * 1.8 + 5
  let cost_per_invoice : ℚ :=
    if strContains ind ("financial") then cost0 * 1.2 else cost0
  let first_time_match_rate : ℤ :=
    if strContains ind ("manufacturing") then 35
    else if strContains ind ("tech") then 65
    else 50
  let score : ℚ :=
    (5 / (processing_time : ℚ)) * 40 +
    (12 / cost_per_invoice) * 40 +
    ((first_time_match_rate : ℚ) / 85) * 20
  let efficiency_score : ℤ := min (pyInt score) 95
  let annual_savings : ℤ :=
    pyInt (((employees : ℚ) * 20 * 12) * (cost_per_invoice - 5))
  { processing_time := processing_time
    cost_per_invoice := cost_per_invoice
    first_time_match_rate := first_time_match_rate
    efficiency_score := efficiency_score
    annual_savings := annual_savings }

/-- The condition under which `ColdEmailPDF.create_hook_dashboard`
(`work.py` line 406) draws the URGENT stamp on the hook page. -/
def hook_urgent (m : Metrics) : Bool := m.efficiency_score < 50

/-- A metrics record with a first-time match rate below 50 but an
efficiency score of at least 50 (such a record is never produced by
`get_company_metrics`, but `create_hook_dashboard` is a function of an
arbitrary metrics dict). -/
def lowMatchHighScore : Metrics :=
  { processing_time := 15, cost_per_invoice := 32,
    first_time_match_rate := 35, efficiency_score := 60,
    annual_savings := 648000 }

/-- `v.strip().lower().startswith(('http://', 'https://'))` from
`first_non_nan_url`. -/
def is_http_url (s : String) : Bool :=
  pyStartsWith (pyToLower (pyStrip s)) ("http://") ||
  pyStartsWith (pyToLower (pyStrip s)) ("https://")

/-- `first_non_nan_url(*values)` from `work.py` lines 20-24: the first
string value whose stripped, lower-cased form starts with `http://` or
`https://`, returned stripped. -/
def first_non_nan_url : List PyVal → Option String
  | [] => none
  | PyVal.nonString :: rest => first_non_nan_url rest
  | PyVal.ofStr s :: rest =>
      if is_http_url s then some (pyStrip s) else first_non_nan_url rest

/-- The spec's wording of logo resolution, for comparison with the
source's `first_non_nan_url`: the first candidate that is a string,
trimmed, and case-insensitively starting with `http://` or `https://`. -/
def resolve_logo_spec (l : List PyVal) : Option String :=
  l.findSome? fun v =>
    match v with
    | PyVal.ofStr s => if is_http_url s then some (pyStrip s) else none
    | PyVal.nonString => none

/-- Outcome of the single `requests.get(url, timeout=15)` call inside
`download_image`: either some exception was raised (connection error,
timeout, ...) or a response with a status code and a raw byte body
arrived. -/
inductive FetchOutcome where
  | exc : FetchOutcome
  | resp : ℕ → List ℕ → FetchOutcome
deriving DecidableEq

/-- `requests.Response.raise_for_status` raises exactly for client and
server error codes, i.e. for `400 ≤ status < 600` (semantics of the
`requests` library, which is not part of this repository). -/
def raise_for_status_raises (status : ℕ) : Bool := 400 ≤ status && status < 600

/-- Result of `download_image`: the returned value and the bytes written
to `dest_path` (`none` when the file was not touched). -/
structure DLResult where
  result : Option String
  written : Option (List ℕ)
deriving DecidableEq

/-- `download_image(url, dest_path)` from `work.py` lines 26-34, as a
function of the fetch outcome: any exception (including the one
`raise_for_status` raises on a 4xx/5xx code) is caught and `None` is
returned with the file untouched; otherwise `r.content` is written to
`dest_path`, which is returned.  The `try/except Exception` wrapper
makes the operation total: it performs one fetch, no retries, and never
propagates an exception. -/
def download_image (fetch : FetchOutcome) (dest : String) : DLResult :=
  match fetch with
  | FetchOutcome.exc => { result := none, written := none }
  | FetchOutcome.resp status body =>
      if raise_for_status_raises status then { result := none, written := none }
      else { result := some dest, written := some body }

/-- The default primary brand color `GREEN` from `work.py` line 13. -/
def GREEN : String := "#2ECC40"

/-- One brand-color slot: the raw cell is accepted only when it is a
string starting with `#`; anything else is replaced by the slot's fixed
default. -/
def resolve_brand_slot (dflt : String) (raw : PyVal) : String :=
  match raw with
  | PyVal.ofStr s => if pyStartsWith s ("#") then s else dflt
  | PyVal.nonString => dflt

/-- The primary brand color, `work.py` lines 577-579: `brand_primary`
accepted only when it is a string starting with `#`, else `GREEN`. -/
def resolve_brand_primary (raw : PyVal) : String := resolve_brand_slot GREEN raw

/-- Modelled from the spec: the secondary brand-color slot.  `src/work.py`
(the only pipeline variant under `src/`) reads no secondary color column;
the spec's `resolve_brand_colors` contract gives the secondary slot the
same accept-or-default rule with its own fixed default, modelled here
parametrically in that default. -/
def resolve_brand_secondary (dflt : String) (raw : PyVal) : String :=
  resolve_brand_slot dflt raw

/-- Claim C1, counterexample: the claim states that the URGENT stamp is
placed whenever `first_time_match_rate` is below 50, even when
`efficiency_score` is at least 50; but `create_hook_dashboard` tests
only `efficiency_score < 50`, so a metrics record with match rate 35 and
score 60 gets no stamp. -/
theorem hook_urgent_ignores_match_rate :
    lowMatchHighScore.first_time_match_rate < 50 ∧
    50 ≤ lowMatchHighScore.efficiency_score ∧
    hook_urgent lowMatchHighScore = false := by decide

/-- Claim C1, amended: the hook page carries the URGENT stamp exactly
when `efficiency_score < 50`; nevertheless, on every metrics record
actually produced by `get_company_metrics` this coincides with the
spec's disjunction `efficiency_score < 50 ∨ first_time_match_rate < 50`,
because a match rate below 50 (the manufacturing branch, 35) forces an
efficiency score below 50. -/
theorem hook_urgent_iff :
    ∀ (e : ℤ) (ind : String),
      (hook_urgent (get_company_metrics e ind) = true ↔
        ((get_company_metrics e ind).efficiency_score < 50 ∨
         (get_company_metrics e ind).first_time_match_rate < 50)) ∧
      (∀ m : Metrics, hook_urgent m = true ↔ m.efficiency_score < 50) := by
  intro e ind
  constructor
  · simp only [hook_urgent, get_company_metrics, decide_eq_true_eq]
    split_ifs <;> norm_num [pyInt, min_def]
  · intro m
    simp [hook_urgent]

/-- Witness for C1 at a concrete input. -/
theorem hook_urgent_iff_witness :
    hook_urgent (get_company_metrics 100 ("Manufacturing")) = true ↔
      ((get_company_metrics 100 ("Manufacturing")).efficiency_score < 50 ∨
       (get_company_metrics 100 ("Manufacturing")).first_time_match_rate < 50) :=
  (hook_urgent_iff 100 ("Manufacturing")).1

/-- Claim C2, counterexample: for 100 employees in industry
"Manufacturing" the annual savings are `int(100*20*12*(32-5)) = 648000`,
not the 6480000 the claim states. -/
theorem manufacturing_100_savings_not_6480000 :
    (get_company_metrics 100 ("Manufacturing")).annual_savings ≠ 6480000 := by
  have h1 : strContains (pyToLower ("Manufacturing")) ("financial") = false := by decide
  simp only [get_company_metrics, h1]
  norm_num [pyInt]

/-- Claim C2, amended: for `employee_count = 100` and industry
"Manufacturing" the derived metrics are processing time 15 days, cost
per invoice 32.0, first-time match rate 35, efficiency score 36, and
annual savings `int(100*20*12*(32-5)) = 648000`. -/
theorem manufacturing_100_metrics :
    get_company_metrics 100 ("Manufacturing") =
      { processing_time := 15, cost_per_invoice := 32,
        first_time_match_rate := 35, efficiency_score := 36,
        annual_savings := 648000 } := by
  have h1 : strContains (pyToLower ("Manufacturing")) ("financial") = false := by decide
  have h2 : strContains (pyToLower ("Manufacturing")) ("manufacturing") = true := by decide
  simp only [get_company_metrics, h1, h2]
  norm_num [pyInt, Metrics.mk.injEq]

/-- Claim C3: processing time is exactly tiered by employee count —
below 50 employees it is 21 days, from 50 up to but excluding 250 it is
15 days, and from 250 on it is 10 days; in particular 49 → 21, 50 → 15,
249 → 15 and 250 → 10. -/
theorem processing_time_tiers :
    (∀ (e : ℤ) (ind : String),
      (get_company_metrics e ind).processing_time =
        if e < 50 then 21 else if e < 250 then 15 else 10) ∧
    (get_company_metrics 49 ("General")).processing_time = 21 ∧
    (get_company_metrics 50 ("General")).processing_time = 15 ∧
    (get_company_metrics 249 ("General")).processing_time = 15 ∧
    (get_company_metrics 250 ("General")).processing_time = 10 := by
  refine ⟨fun e ind => ?_, ?_, ?_, ?_, ?_⟩
  · simp only [get_company_metrics]
    split_ifs <;> omega
  all_goals (simp only [get_company_metrics]; norm_num)

/-- Claim C4: industry effects are case-insensitive substring tests on
the industry string — the cost per invoice is `processing_time*1.8 + 5`,
multiplied by 1.2 exactly when the lower-cased industry contains
"financial", and the first-time match rate is 35 when it contains
"manufacturing", else 65 when it contains "tech", else 50, with the
manufacturing branch taking priority; concrete instances:
"Tech Manufacturing" and "MANUFACTURING" give 35, and
"FinTech Financial Services" gets the 1.2 cost multiplier and match
rate 65. -/
theorem industry_effects :
    (∀ (e : ℤ) (ind : String),
      (get_company_metrics e ind).cost_per_invoice =
        (if strContains (pyToLower ind) ("financial") = true
         then (((get_company_metrics e ind).processing_time : ℚ) * 1.8 + 5) * 1.2
         else ((get_company_metrics e ind).processing_time : ℚ) * 1.8 + 5) ∧
      (get_company_metrics e ind).first_time_match_rate =
        (if strContains (pyToLower ind) ("manufacturing") = true then 35
         else if strContains (pyToLower ind) ("tech") = true then 65
         else 50)) ∧
    (get_company_metrics 300 ("Tech Manufacturing")).first_time_match_rate = 35 ∧
    (get_company_metrics 300 ("MANUFACTURING")).first_time_match_rate = 35 ∧
    (get_company_metrics 300 ("FinTech Financial Services")).cost_per_invoice
      = (10 * 1.8 + 5) * 1.2 ∧
    (get_company_metrics 300 ("FinTech Financial Services")).first_time_match_rate = 65 := by
  refine ⟨fun e ind => ⟨?_, ?_⟩, ?_, ?_, ?_, ?_⟩
  · simp only [get_company_metrics]
  · simp only [get_company_metrics]
  · have h : strContains (pyToLower ("Tech Manufacturing")) ("manufacturing") = true := by
      decide
    simp only [get_company_metrics, h]
    norm_num
  · have h : strContains (pyToLower ("MANUFACTURING")) ("manufacturing") = true := by decide
    simp only [get_company_metrics, h]
    norm_num
  · have h : strContains (pyToLower ("FinTech Financial Services")) ("financial") = true := by
      decide
    simp only [get_company_metrics, h]
    norm_num
  · have h1 : strContains (pyToLower ("FinTech Financial Services")) ("manufacturing")
        = false := by decide
    have h2 : strContains (pyToLower ("FinTech Financial Services")) ("tech") = true := by
      decide
    simp only [get_company_metrics, h1, h2]
    norm_num

/-- Claim C5: for every non-negative employee count and every industry,
the efficiency score equals the weighted composite
`(5/processing_time)*40 + (12/cost_per_invoice)*40 +
(first_time_match_rate/85)*20` truncated to an integer and capped above
at 95, so the returned score is at most 95. -/
theorem efficiency_score_capped_formula :
    ∀ (e : ℤ) (ind : String), 0 ≤ e →
      (get_company_metrics e ind).efficiency_score =
        min (pyInt ((5 / ((get_company_metrics e ind).processing_time : ℚ)) * 40 +
                    (12 / (get_company_metrics e ind).cost_per_invoice) * 40 +
                    (((get_company_metrics e ind).first_time_match_rate : ℚ) / 85) * 20)) 95 ∧
      (get_company_metrics e ind).efficiency_score ≤ 95 := by
  intro e ind _
  refine ⟨rfl, ?_⟩
  simp only [get_company_metrics]
  exact min_le_right _ _

/-- Witness for C5 at employee count 100 and industry "Manufacturing". -/
theorem efficiency_score_capped_formula_witness :
    (0 : ℤ) ≤ 100 ∧ (get_company_metrics 100 ("Manufacturing")).efficiency_score ≤ 95 :=
  ⟨by norm_num, (efficiency_score_capped_formula 100 ("Manufacturing") (by norm_num)).2⟩

/-- Claim C6: the metrics derivation is total — for every non-negative
employee count and every industry string the processing time is at least
10 (never 0) and the cost per invoice is strictly positive, so no ratio
in the formula chain divides by zero. -/
theorem metrics_no_division_by_zero :
    ∀ (e : ℤ) (ind : String), 0 ≤ e →
      10 ≤ (get_company_metrics e ind).processing_time ∧
      (get_company_metrics e ind).processing_time ≠ 0 ∧
      0 < (get_company_metrics e ind).cost_per_invoice := by
  intro e ind _
  simp only [get_company_metrics]
  split_ifs <;> norm_num

/-- Witness for C6 at the degenerate employee count 0. -/
theorem metrics_no_division_by_zero_witness :
    (0 : ℤ) ≤ 0 ∧
    (10 ≤ (get_company_metrics 0 ("General")).processing_time ∧
     (get_company_metrics 0 ("General")).processing_time ≠ 0 ∧
     0 < (get_company_metrics 0 ("General")).cost_per_invoice) :=
  ⟨le_refl 0, metrics_no_division_by_zero 0 ("General") (le_refl 0)⟩

/-- Claim C7, counterexample: the claim states that the download returns
nothing on any non-2xx status, but `raise_for_status` raises only for
4xx/5xx codes, so for a response with the non-2xx status 304 the code
writes the body and returns the destination path. -/
theorem download_succeeds_on_not_modified :
    raise_for_status_raises 304 = false ∧ ¬ (200 ≤ 304 ∧ 304 < 300) ∧
    download_image (FetchOutcome.resp 304 [137, 80]) ("img/logo.png") =
      { result := some ("img/logo.png"), written := some [137, 80] } := by decide

/-- Claim C7, amended: the download never raises and performs one fetch
with no retries; it returns nothing (leaving the file untouched) exactly
when the fetch raised or the status is a 4xx/5xx code, and otherwise
writes the raw response body to the destination path and returns that
path. -/
theorem download_image_behaviour :
    ∀ (f : FetchOutcome) (d : String),
      (download_image f d = { result := none, written := none } ↔
        (f = FetchOutcome.exc ∨
         ∃ s body, f = FetchOutcome.resp s body ∧ raise_for_status_raises s = true)) ∧
      (download_image f d = { result := none, written := none } ∨
       ∃ s body, f = FetchOutcome.resp s body ∧ raise_for_status_raises s = false ∧
         download_image f d = { result := some d, written := some body }) := by
  intro f d
  cases f with
  | exc => simp [download_image]
  | resp s body =>
    by_cases h : raise_for_status_raises s = true
    · simp [download_image, h]
    · simp only [Bool.not_eq_true] at h
      simp [download_image, h]

/-- Claim C8: logo resolution returns the first candidate that is a
string whose trimmed form case-insensitively starts with `http://` or
`https://`, returned trimmed, and nothing when no candidate qualifies;
in particular for `[None, "not-a-url", "https://example.com/logo.png"]`
it returns the third candidate. -/
theorem first_non_nan_url_matches_spec :
    (∀ l : List PyVal, first_non_nan_url l = resolve_logo_spec l) ∧
    first_non_nan_url [PyVal.nonString, PyVal.ofStr ("not-a-url"),
        PyVal.ofStr ("https://example.com/logo.png")]
      = some ("https://example.com/logo.png") := by
  constructor
  · intro l
    induction l with
    | nil => rfl
    | cons v rest ih =>
      cases v with
      | nonString =>
        simpa [first_non_nan_url, resolve_logo_spec, List.findSome?] using ih
      | ofStr s =>
        by_cases h : is_http_url s = true
        · simp [first_non_nan_url, resolve_logo_spec, List.findSome?, h]
        · simp only [Bool.not_eq_true] at h
          simpa [first_non_nan_url, resolve_logo_spec, List.findSome?, h] using ih
  · decide

/-- Claim C9: a brand-color slot accepts its raw cell exactly when the
cell is a string beginning with `#` (kept verbatim) and otherwise falls
back to the slot's fixed default; "blue" is rejected in favor of the
default and "#112233" is accepted verbatim, for the primary slot (with
its default `GREEN`) and for the secondary slot with any fixed
default. -/
theorem brand_color_resolution :
    (∀ raw : PyVal, resolve_brand_primary raw =
       (match raw with
        | PyVal.ofStr s => if pyStartsWith s ("#") = true then s else GREEN
        | PyVal.nonString => GREEN)) ∧
    resolve_brand_primary (PyVal.ofStr ("blue")) = GREEN ∧
    resolve_brand_primary (PyVal.ofStr ("#112233")) = "#112233" ∧
    (∀ dflt : String,
      resolve_brand_secondary dflt (PyVal.ofStr ("blue")) = dflt ∧
      resolve_brand_secondary dflt (PyVal.ofStr ("#112233")) = "#112233" ∧
      ∀ raw : PyVal, resolve_brand_secondary dflt raw =
        (match raw with
         | PyVal.ofStr s => if pyStartsWith s ("#") = true then s else dflt
         | PyVal.nonString => dflt)) := by
  have hblue : pyStartsWith ("blue") ("#") = false := by decide
  have hhex : pyStartsWith ("#112233") ("#") = true := by decide
  refine ⟨fun raw => ?_, by decide, by decide, fun dflt => ⟨?_, ?_, fun raw => ?_⟩⟩
  · cases raw <;> rfl
  · simp [resolve_brand_secondary, resolve_brand_slot, hblue]
  · simp [resolve_brand_secondary, resolve_brand_slot, hhex]
  · cases raw <;> rfl

/-- Claim C10: for every employee count (of any sign) and every industry
string the derived efficiency score lies between 27 and 56 inclusive, is
strictly positive, and equals the uncapped truncated composite — the cap
at 95 is never the binding term. -/
theorem efficiency_score_bounds :
    ∀ (e : ℤ) (ind : String),
      27 ≤ (get_company_metrics e ind).efficiency_score ∧
      (get_company_metrics e ind).efficiency_score ≤ 56 ∧
      0 < (get_company_metrics e ind).efficiency_score ∧
      (get_company_metrics e ind).efficiency_score =
        pyInt ((5 / ((get_company_metrics e ind).processing_time : ℚ)) * 40 +
               (12 / (get_company_metrics e ind).cost_per_invoice) * 40 +
               (((get_company_metrics e ind).first_time_match_rate : ℚ) / 85) * 20) := by
  intro e ind
  simp only [get_company_metrics]
  split_ifs <;> norm_num [pyInt, min_def]
